import Mathlib

/-!
Shallow embedding of `excel_processor.py`, a one-shot script that copies a
handful of numeric figures from a source spreadsheet into a template
spreadsheet by text-label search, and theorems about its behaviour.

Python cell values are modelled by `Value`: `Value.none` is Python `None`
(the value of an empty cell), strings, integers, floats (modelled as exact
rationals) and a constructor for any other object.  Worksheets are grids of
cells addressed by 1-based (row, column) coordinates together with a list of
merged ranges kept in the order `ws.merged_cells.ranges` iterates them.
-/

namespace ExcelProc

/-- A Python cell value as openpyxl yields it. -/
inductive Value where
  | none : Value
  | str (s : String) : Value
  | int (n : Int) : Value
  | float (q : ℚ) : Value
  | other (tag : String) : Value
deriving DecidableEq, Repr

/-- Models `openpyxl.styles.Alignment(horizontal=..., vertical=...)`. -/
structure Alignment where
  horizontal : Option String
  vertical : Option String
deriving DecidableEq, Repr

/-- Models `openpyxl.styles.Font(color=...)`. -/
structure Font where
  color : Option String
deriving DecidableEq, Repr

/-- A worksheet cell: its value and the style attributes the script touches. -/
structure Cell where
  value : Value
  alignment : Option Alignment
  font : Option Font
deriving DecidableEq, Repr

/-- A merged-cell range, as openpyxl's `CellRange` bounds it. -/
structure MergedRange where
  minRow : Nat
  maxRow : Nat
  minCol : Nat
  maxCol : Nat
deriving DecidableEq, Repr

/-- A worksheet: `ws.max_row`, `ws.max_column`, the cell grid (total: openpyxl
returns an empty cell for any coordinate) and `ws.merged_cells.ranges` in
iteration order. -/
structure Worksheet where
  maxRow : Nat
  maxCol : Nat
  cells : Nat → Nat → Cell
  mergedRanges : List MergedRange

/-- Holds when the char list `p` starts the char list `h`. -/
def isPrefixL : List Char → List Char → Bool
  | [], _ => true
  | _ :: _, [] => false
  | a :: p, b :: h => a = b && isPrefixL p h

/-- Holds when the char list `p` occurs contiguously inside `h`. -/
def occursL (p : List Char) : List Char → Bool
  | [] => p.isEmpty
  | b :: h => isPrefixL p (b :: h) || occursL p h

/-- Python's `pat in hay` on strings: substring occurrence. -/
def strContains (hay pat : String) : Bool :=
  occursL pat.data hay.data

/-- The repeated Python guard
`cell.value and isinstance(cell.value, str) and target_text in cell.value`:
true exactly for a non-empty string value containing `t`. -/
def cellTextMatches (v : Value) (t : String) : Bool :=
  match v with
  | Value.str s => !(decide (s = "")) && strContains s t
  | _ => false

/-- Python `target_text in cell.value` alone (no truthiness guard). -/
def valueContainsStr (v : Value) (t : String) : Bool :=
  match v with
  | Value.str s => strContains s t
  | _ => false

/-- A Python `for k in range(lo, lo + len): if p(k): return k` loop;
`Option.none` when the loop falls through. -/
def findFirstInRange (lo : Nat) (len : Nat) (p : Nat → Bool) : Option Nat :=
  match len with
  | 0 => Option.none
  | n + 1 => if p lo then Option.some lo else findFirstInRange (lo + 1) n p

/-- Nested Python loops `for r in range(rlo, rlo+rlen): for c in
range(clo, clo+clen): if p(r,c): return (r, c)`, row-major. -/
def findFirstInGrid (rlo rlen clo clen : Nat) (p : Nat → Nat → Bool) :
    Option (Nat × Nat) :=
  match rlen with
  | 0 => Option.none
  | n + 1 =>
    match findFirstInRange clo clen (p rlo) with
    | Option.some c => Option.some (rlo, c)
    | Option.none => findFirstInGrid (rlo + 1) n clo clen p

/-- Models `find_merged_cell_by_text(ws, target_text)`: the first range of
`ws.merged_cells.ranges`, in iteration order, whose top-left cell holds a
non-empty string containing `target_text`. -/
def find_merged_cell_by_text (ws : Worksheet) (target_text : String) :
    Option MergedRange :=
  ws.mergedRanges.find? fun rg =>
    cellTextMatches (ws.cells rg.minRow rg.minCol).value target_text

/-- Models `find_text_in_column_range(ws, target_text, min_row, max_row, min_col,
max_col)`: row-major scan of the rectangle (skipping coordinates past
`ws.max_row`/`ws.max_column`) for a matching cell.  The Python `(None, None)`
return is `Option.none`. -/
def find_text_in_column_range (ws : Worksheet) (target_text : String)
    (min_row max_row min_col max_col : Nat) : Option (Nat × Nat) :=
  findFirstInGrid min_row (max_row + 1 - min_row) min_col (max_col + 1 - min_col)
    fun r c =>
      !(decide (r > ws.maxRow) || decide (c > ws.maxCol)) &&
        cellTextMatches (ws.cells r c).value target_text

/-- The scan condition of `find_first_non_empty_below`:
`cell_value is not None and cell_value != ""` (so `0` counts non-empty). -/
def isNonEmptyValue (v : Value) : Bool :=
  !(decide (v = Value.none)) && !(decide (v = Value.str ""))

/-- Models `find_first_non_empty_below(ws, start_row, col, max_rows_to_check)`:
first row of `range(start_row+1, min(start_row+1+max_rows_to_check,
ws.max_row+1))` whose cell in `col` is non-empty, with its coordinates and
value.  The Python `(None, None, None)` return is `Option.none`. -/
def find_first_non_empty_below (ws : Worksheet) (start_row col : Nat)
    (max_rows_to_check : Nat) : Option (Nat × Nat × Value) :=
  match findFirstInRange (start_row + 1)
      (min (start_row + 1 + max_rows_to_check) (ws.maxRow + 1) - (start_row + 1))
      (fun r => isNonEmptyValue (ws.cells r col).value) with
  | Option.some r => Option.some (r, col, (ws.cells r col).value)
  | Option.none => Option.none

/-- Constant `TEMPLATE_CATEGORY_COL = 3`. -/
def TEMPLATE_CATEGORY_COL : Nat := 3

/-- Models `find_template_category_row(template_ws, category_text)`: the first row of
`range(1, max_row+1)` whose category-column cell holds a non-empty string
containing `category_text`. -/
def find_template_category_row (template_ws : Worksheet)
    (category_text : String) : Option Nat :=
  findFirstInRange 1 template_ws.maxRow fun row =>
    cellTextMatches (template_ws.cells row TEMPLATE_CATEGORY_COL).value category_text

/-- The whitespace characters Python's `str.strip()` removes (ASCII part). -/
def isSpaceChar (c : Char) : Bool :=
  c = ' ' || c = '\t' || c = '\n' || c = '\r' || c = '\x0b' || c = '\x0c'

/-- Python's `s.strip()`: drop whitespace from both ends. -/
def pyStrip (s : String) : String :=
  ⟨((s.data.dropWhile isSpaceChar).reverse.dropWhile isSpaceChar).reverse⟩

/-- The header comparison of `find_column_index_by_header`:
`cell_value and isinstance(cell_value, str) and
header_text.strip() == cell_value.strip()`. -/
def headerMatches (v : Value) (header_text : String) : Bool :=
  match v with
  | Value.str s => !(decide (s = "")) && decide (pyStrip header_text = pyStrip s)
  | _ => false

/-- Models `find_column_index_by_header(ws, header_text, header_row)`: the first
column of `range(1, max_column+1)` whose header-row cell matches. -/
def find_column_index_by_header (ws : Worksheet) (header_text : String)
    (header_row : Nat) : Option Nat :=
  findFirstInRange 1 ws.maxCol fun col =>
    headerMatches (ws.cells header_row col).value header_text

/-! ## `update_template` -/

/-- Python truthiness of an optional row/column number: `not x` holds for
`None` and for `0`. -/
def pyFalsy (x : Option Nat) : Bool :=
  match x with
  | Option.none => true
  | Option.some n => decide (n = 0)

/-- Round a rational to the nearest integer, ties to even (Python's `round`). -/
def roundHalfEven (x : ℚ) : ℤ :=
  let f : ℤ := Rat.floor x
  let r : ℚ := x - (f : ℚ)
  if r < 1 / 2 then f
  else if 1 / 2 < r then f + 1
  else if f % 2 = 0 then f else f + 1

/-- Python `round(q, 2)` on a float, the float modelled as an exact rational. -/
def pyRound2 (q : ℚ) : ℚ :=
  ((roundHalfEven (q * 100) : ℚ)) / 100

/-- The value-processing step of `update_template`:
`round(value, 2) if isinstance(value, (int, float)) else value`
(`round(n, 2)` on a Python int returns it unchanged). -/
def round2Value (v : Value) : Value :=
  match v with
  | Value.int n => Value.int n
  | Value.float q => Value.float (pyRound2 q)
  | w => w

/-- Replace the cell at `(r, c)` of `ws`, leaving every other cell as it was. -/
def setCell (ws : Worksheet) (r c : Nat) (cl : Cell) : Worksheet :=
  { ws with cells := fun r' c' => if r' = r ∧ c' = c then cl else ws.cells r' c' }

/-- Models `update_template(template_ws, target_row, target_col, value)`: on a falsy
row or column, return `False` with the sheet untouched; otherwise write the
processed value, set center alignment and a black font, and return `True`
(the `try` block raises on no input reachable here, so the `except` branch
does not appear). -/
def update_template (template_ws : Worksheet) (target_row target_col : Option Nat)
    (value : Value) : Bool × Worksheet :=
  if pyFalsy target_row then (false, template_ws)
  else if pyFalsy target_col then (false, template_ws)
  else
    let r := target_row.getD 0
    let c := target_col.getD 0
    let processed_value := round2Value value
    (true,
      setCell template_ws r c
        { value := processed_value,
          alignment := Option.some
            { horizontal := Option.some "center", vertical := Option.some "center" },
          font := Option.some { color := Option.some "000000" } })

/-! ## The main routine's constants and label strings -/

/-- Constant `TARGET_COLUMN_HEADER = "本年累计"`. -/
def TARGET_COLUMN_HEADER : String := "本年累计"

/-- Constant `HEADER_ROW = 2`. -/
def HEADER_ROW : Nat := 2

def xiaojiText : String := "小计（含股基、港股通、北交所、期权、债券、回购等）"

def dangnianText : String := "当年"

def dailiCat : String := "代理买卖业务净收入"

def dangriText : String := "当日余额（亿元）"

def rongziText : String := "融资融券余额"

def shidianCat : String := "最新双融余额规模（时点，万元）"

def rijunText : String := "全年累计日均余额（亿元）"

def rijunCat : String := "最新双融余额规模（日均，万元）"

def youxiaoText : String := "有效客户数（户）"

def xinzengText : String := "当年新增"

def liutongExclude : String := "期末流通净资产"

def youxiaoCat : String := "新增有效户（户，不折算）"

def liutongText : String := "当年新增客户期末流通净资产（万元）"

def liutongCat : String := "新增客户期末流通净资产"

/-- Which `results_log` branch a metric task took. -/
inductive TaskOutcome where
  | noMergedCell : TaskOutcome
  | noInnerText : TaskOutcome
  | noValue : TaskOutcome
  | updated : TaskOutcome
  | updateFailed : TaskOutcome
deriving DecidableEq, Repr

/-- The shared shape of tasks 1, 5 and 6: find the merged header, find the
inner label within its columns (searching up to 5 rows below it), take the
first non-empty value below that label, find the template category row, and
update the template. -/
def stdTask (src tpl : Worksheet) (col : Nat)
    (mergedText innerText catText : String) : Worksheet × TaskOutcome :=
  match find_merged_cell_by_text src mergedText with
  | Option.none => (tpl, TaskOutcome.noMergedCell)
  | Option.some rg =>
    match find_text_in_column_range src innerText rg.minRow
        (min (rg.maxRow + 5) src.maxRow) rg.minCol rg.maxCol with
    | Option.none => (tpl, TaskOutcome.noInnerText)
    | Option.some (r, c) =>
      if decide (r ≠ 0) && decide (c ≠ 0) then
        match find_first_non_empty_below src r c 10 with
        | Option.none => (tpl, TaskOutcome.noValue)
        | Option.some (_, _, v) =>
          let template_row := find_template_category_row tpl catText
          let res := update_template tpl template_row (Option.some col) v
          (res.2, if res.1 then TaskOutcome.updated else TaskOutcome.updateFailed)
      else (tpl, TaskOutcome.noInnerText)

/-- Task 1–4: 代理买卖业务净收入. -/
def task1 (src tpl : Worksheet) (col : Nat) : Worksheet × TaskOutcome :=
  stdTask src tpl col xiaojiText dangnianText dailiCat

/-- Task 5: 最新双融余额规模（时点）. -/
def task5 (src tpl : Worksheet) (col : Nat) : Worksheet × TaskOutcome :=
  stdTask src tpl col dangriText rongziText shidianCat

/-- Task 6: 最新双融余额规模（日均）. -/
def task6 (src tpl : Worksheet) (col : Nat) : Worksheet × TaskOutcome :=
  stdTask src tpl col rijunText rongziText rijunCat

/-- Task 7: 新增有效户, the standard shape plus the exclusion
`"期末流通净资产" not in source_ws.cell(xinzeng_row, xinzeng_col).value`. -/
def task7 (src tpl : Worksheet) (col : Nat) : Worksheet × TaskOutcome :=
  match find_merged_cell_by_text src youxiaoText with
  | Option.none => (tpl, TaskOutcome.noMergedCell)
  | Option.some rg =>
    match find_text_in_column_range src xinzengText rg.minRow
        (min (rg.maxRow + 5) src.maxRow) rg.minCol rg.maxCol with
    | Option.none => (tpl, TaskOutcome.noInnerText)
    | Option.some (r, c) =>
      if decide (r ≠ 0) && decide (c ≠ 0) &&
          !(valueContainsStr (src.cells r c).value liutongExclude) then
        match find_first_non_empty_below src r c 10 with
        | Option.none => (tpl, TaskOutcome.noValue)
        | Option.some (_, _, v) =>
          let template_row := find_template_category_row tpl youxiaoCat
          let res := update_template tpl template_row (Option.some col) v
          (res.2, if res.1 then TaskOutcome.updated else TaskOutcome.updateFailed)
      else (tpl, TaskOutcome.noInnerText)

/-- Task 8: 新增客户期末流通净资产; the value is taken directly below the
merged header's top-left cell. -/
def task8 (src tpl : Worksheet) (col : Nat) : Worksheet × TaskOutcome :=
  match find_merged_cell_by_text src liutongText with
  | Option.none => (tpl, TaskOutcome.noMergedCell)
  | Option.some rg =>
    match find_first_non_empty_below src rg.minRow rg.minCol 10 with
    | Option.none => (tpl, TaskOutcome.noValue)
    | Option.some (_, _, v) =>
      let template_row := find_template_category_row tpl liutongCat
      let res := update_template tpl template_row (Option.some col) v
      (res.2, if res.1 then TaskOutcome.updated else TaskOutcome.updateFailed)

/-- The lookup chain of `stdTask` with the outcome "some lookup step came back
not-found": the merged-cell search, the inner-label search (a falsy
coordinate included), the value search below it, or the category-row search. -/
def stdTaskLookupFailed (src tpl : Worksheet)
    (mergedText innerText catText : String) : Bool :=
  match find_merged_cell_by_text src mergedText with
  | Option.none => true
  | Option.some rg =>
    match find_text_in_column_range src innerText rg.minRow
        (min (rg.maxRow + 5) src.maxRow) rg.minCol rg.maxCol with
    | Option.none => true
    | Option.some (r, c) =>
      if decide (r ≠ 0) && decide (c ≠ 0) then
        match find_first_non_empty_below src r c 10 with
        | Option.none => true
        | Option.some _ => (find_template_category_row tpl catText).isNone
      else true

/-- Task 7's lookup chain failing at some step. -/
def task7LookupFailed (src tpl : Worksheet) : Bool :=
  match find_merged_cell_by_text src youxiaoText with
  | Option.none => true
  | Option.some rg =>
    match find_text_in_column_range src xinzengText rg.minRow
        (min (rg.maxRow + 5) src.maxRow) rg.minCol rg.maxCol with
    | Option.none => true
    | Option.some (r, c) =>
      if decide (r ≠ 0) && decide (c ≠ 0) &&
          !(valueContainsStr (src.cells r c).value liutongExclude) then
        match find_first_non_empty_below src r c 10 with
        | Option.none => true
        | Option.some _ => (find_template_category_row tpl youxiaoCat).isNone
      else true

/-- Task 8's lookup chain failing at some step. -/
def task8LookupFailed (src tpl : Worksheet) : Bool :=
  match find_merged_cell_by_text src liutongText with
  | Option.none => true
  | Option.some rg =>
    match find_first_non_empty_below src rg.minRow rg.minCol 10 with
    | Option.none => true
    | Option.some _ => (find_template_category_row tpl liutongCat).isNone

/-! ## `main` -/

/-- What `main` observes of the outside world: whether the two input files
exist, whether `load_workbook` succeeds, the two loaded worksheets, and
whether the final `save` succeeds. -/
structure Env where
  sourceExists : Bool
  templateExists : Bool
  loadOk : Bool
  source : Worksheet
  template : Worksheet
  saveOk : Bool

/-- What a run of `main` did: whether it reached any lookup, the in-memory
template worksheet when one was loaded, the worksheet written to the output
file (when the save happened), and the outcome of each metric task run. -/
structure MainResult where
  performedLookup : Bool
  templateOut : Option Worksheet
  saved : Option Worksheet
  outcomes : List TaskOutcome

/-- Models `main()`: abort on a missing input file or a failed load; find the target
column and abort if it is missing; otherwise run the five metric tasks in
order, threading the template worksheet through them, and save the result. -/
def mainRun (env : Env) : MainResult :=
  if !env.sourceExists then ⟨false, Option.none, Option.none, []⟩
  else if !env.templateExists then ⟨false, Option.none, Option.none, []⟩
  else if !env.loadOk then ⟨false, Option.none, Option.none, []⟩
  else
    match find_column_index_by_header env.template TARGET_COLUMN_HEADER HEADER_ROW with
    | Option.none => ⟨true, Option.some env.template, Option.none, []⟩
    | Option.some actual_target_col =>
      if pyFalsy (Option.some actual_target_col) then
        ⟨true, Option.some env.template, Option.none, []⟩
      else
        let r1 := task1 env.source env.template actual_target_col
        let r2 := task5 env.source r1.1 actual_target_col
        let r3 := task6 env.source r2.1 actual_target_col
        let r4 := task7 env.source r3.1 actual_target_col
        let r5 := task8 env.source r4.1 actual_target_col
        ⟨true, Option.some r5.1,
          if env.saveOk then Option.some r5.1 else Option.none,
          [r1.2, r2.2, r3.2, r4.2, r5.2]⟩

/-! ## Concrete fixture worksheets and environments -/

/-- A cell holding a string, with default style. -/
def cStr (s : String) : Cell := ⟨Value.str s, Option.none, Option.none⟩

/-- An untouched empty cell (Python value `None`). -/
def cEmpty : Cell := ⟨Value.none, Option.none, Option.none⟩

/-- A blank worksheet. -/
def wsEmpty : Worksheet where
  maxRow := 0
  maxCol := 0
  cells := fun _ _ => cEmpty
  mergedRanges := []

/-- Two matching merged ranges whose collection order is bottom-to-top: the
range starting at row 10 is listed before the one starting at row 2. -/
def wsOrd : Worksheet where
  maxRow := 12
  maxCol := 4
  cells := fun r c =>
    if r = 10 ∧ c = 1 then cStr "X合计"
    else if r = 2 ∧ c = 1 then cStr "X小计"
    else cEmpty
  mergedRanges := [⟨10, 11, 1, 2⟩, ⟨2, 3, 1, 2⟩]

/-- One merged range whose top-left cell holds the empty string. -/
def wsEmptyTL : Worksheet where
  maxRow := 6
  maxCol := 3
  cells := fun r c => if r = 5 ∧ c = 2 then cStr "" else cEmpty
  mergedRanges := [⟨5, 6, 2, 3⟩]

/-- A sheet whose single header cell carries trailing whitespace. -/
def wsStrip : Worksheet where
  maxRow := 3
  maxCol := 1
  cells := fun r c => if r = 2 ∧ c = 1 then cStr "X " else cEmpty
  mergedRanges := []

/-- A sheet with the numeric value `0` below an anchor cell. -/
def wsZero : Worksheet where
  maxRow := 4
  maxCol := 2
  cells := fun r c =>
    if r = 3 ∧ c = 2 then ⟨Value.int 0, Option.none, Option.none⟩ else cEmpty
  mergedRanges := []

/-- A template sheet with the target-column header in row 2 and one category. -/
def tplW : Worksheet where
  maxRow := 8
  maxCol := 5
  cells := fun r c =>
    if r = 2 ∧ c = 4 then cStr "本年累计"
    else if r = 5 ∧ c = 3 then cStr "代理买卖业务净收入"
    else cEmpty
  mergedRanges := []

/-- An environment whose source file is missing. -/
def envMissing : Env := ⟨false, true, true, wsEmpty, wsEmpty, true⟩

/-- A complete environment: both files present, loads and save succeed, the
source sheet blank, the template sheet `tplW`. -/
def envW : Env := ⟨true, true, true, wsEmpty, tplW, true⟩

/-! ## Characterization lemmas for the scan combinators -/

/-- A successful `findFirstInRange` yields exactly the least index of `[lo, lo+len)`
satisfying `p`. -/
theorem findFirstInRange_eq_some {lo len : Nat} {p : Nat → Bool} {k : Nat} :
    findFirstInRange lo len p = Option.some k ↔
      lo ≤ k ∧ k < lo + len ∧ p k = true ∧ ∀ j, lo ≤ j → j < k → p j = false := by
  induction len generalizing lo with
  | zero =>
    constructor
    · intro h; exact Option.noConfusion h
    · rintro ⟨h1, h2, -, -⟩; omega
  | succ n ih =>
    simp only [findFirstInRange]
    by_cases h : p lo = true
    · simp only [h, if_true]
      constructor
      · intro he
        injection he with he
        subst he
        exact ⟨Nat.le_refl _, by omega, h, fun j hj1 hj2 => by omega⟩
      · rintro ⟨h1, h2, h3, h4⟩
        have hk : k = lo := by
          by_contra hne
          have := h4 lo (Nat.le_refl _) (by omega)
          rw [h] at this
          exact Bool.noConfusion this
        subst hk; rfl
    · have hb : p lo = false := by
        cases hpl : p lo
        · rfl
        · exact absurd hpl h
      simp only [hb, Bool.false_eq_true, if_false, ih]
      constructor
      · rintro ⟨h1, h2, h3, h4⟩
        refine ⟨by omega, by omega, h3, fun j hj1 hj2 => ?_⟩
        rcases Nat.eq_or_lt_of_le hj1 with he | hlt
        · exact he ▸ hb
        · exact h4 j hlt hj2
      · rintro ⟨h1, h2, h3, h4⟩
        have hk : lo ≠ k := by
          rintro rfl
          rw [h3] at hb
          exact Bool.noConfusion hb
        exact ⟨by omega, by omega, h3, fun j hj1 hj2 => h4 j (by omega) hj2⟩

/-- The scan `findFirstInRange` falls through exactly when nothing in `[lo, lo+len)`
satisfies `p`. -/
theorem findFirstInRange_eq_none {lo len : Nat} {p : Nat → Bool} :
    findFirstInRange lo len p = Option.none ↔
      ∀ k, lo ≤ k → k < lo + len → p k = false := by
  induction len generalizing lo with
  | zero =>
    constructor
    · intro _ k h1 h2; omega
    · intro _; rfl
  | succ n ih =>
    simp only [findFirstInRange]
    by_cases h : p lo = true
    · simp only [h, if_true]
      constructor
      · intro he; exact Option.noConfusion he
      · intro hall
        have := hall lo (Nat.le_refl _) (by omega)
        rw [h] at this
        exact Bool.noConfusion this
    · have hb : p lo = false := by
        cases hpl : p lo
        · rfl
        · exact absurd hpl h
      simp only [hb, Bool.false_eq_true, if_false, ih]
      constructor
      · intro hall k h1 h2
        rcases Nat.eq_or_lt_of_le h1 with he | hlt
        · exact he ▸ hb
        · exact hall k hlt (by omega)
      · intro hall k h1 h2
        exact hall k (by omega) (by omega)

/-- The row-major grid scan falls through exactly when no in-rectangle pair
satisfies `p`. -/
theorem findFirstInGrid_eq_none {rlo rlen clo clen : Nat} {p : Nat → Nat → Bool} :
    findFirstInGrid rlo rlen clo clen p = Option.none ↔
      ∀ r c, rlo ≤ r → r < rlo + rlen → clo ≤ c → c < clo + clen →
        p r c = false := by
  induction rlen generalizing rlo with
  | zero =>
    constructor
    · intro _ r c h1 h2; omega
    · intro _; rfl
  | succ n ih =>
    simp only [findFirstInGrid]
    cases hrow : findFirstInRange clo clen (p rlo) with
    | some c =>
      constructor
      · intro he; exact Option.noConfusion he
      · intro hall
        obtain ⟨hc1, hc2, hc3, -⟩ := findFirstInRange_eq_some.mp hrow
        have := hall rlo c (Nat.le_refl _) (by omega) hc1 hc2
        rw [hc3] at this
        exact Bool.noConfusion this
    | none =>
      rw [ih]
      have hfirst := findFirstInRange_eq_none.mp hrow
      constructor
      · intro hall r c h1 h2 h3 h4
        rcases Nat.eq_or_lt_of_le h1 with he | hlt
        · exact he ▸ hfirst c h3 h4
        · exact hall r c hlt (by omega) h3 h4
      · intro hall r c h1 h2 h3 h4
        exact hall r c (by omega) (by omega) h3 h4

/-- A successful `List.find?` splits the list at the first satisfying
element. -/
theorem find?_first_split {α : Type} {p : α → Bool} :
    ∀ {l : List α} {a : α}, l.find? p = Option.some a →
      ∃ l1 l2, l = l1 ++ a :: l2 ∧ p a = true ∧ ∀ b ∈ l1, p b = false := by
  intro l
  induction l with
  | nil => intro a h; exact Option.noConfusion h
  | cons x xs ih =>
    intro a h
    cases hx : p x with
    | true =>
      rw [List.find?_cons_of_pos _ hx] at h
      injection h with h
      subst h
      exact ⟨[], xs, rfl, hx, by simp⟩
    | false =>
      rw [List.find?_cons_of_neg _ (by simp [hx])] at h
      obtain ⟨l1, l2, he, hpa, hall⟩ := ih h
      refine ⟨x :: l1, l2, by rw [he]; rfl, hpa, ?_⟩
      intro b hb
      rcases List.mem_cons.mp hb with rfl | hb
      · exact hx
      · exact hall b hb

/-- The Python guard as a proposition: a non-empty string value containing `t`. -/
theorem cellTextMatches_iff {v : Value} {t : String} :
    cellTextMatches v t = true ↔
      ∃ s, v = Value.str s ∧ s ≠ "" ∧ strContains s t = true := by
  cases v <;> simp [cellTextMatches]

/-- The header guard as a proposition: a non-empty string value whose stripped
form equals the stripped header text. -/
theorem headerMatches_iff {v : Value} {t : String} :
    headerMatches v t = true ↔
      ∃ s, v = Value.str s ∧ s ≠ "" ∧ pyStrip t = pyStrip s := by
  cases v <;> simp [headerMatches]

/-- The non-emptiness guard as a proposition. -/
theorem isNonEmptyValue_iff {v : Value} :
    isNonEmptyValue v = true ↔ v ≠ Value.none ∧ v ≠ Value.str "" := by
  simp [isNonEmptyValue]

/-- The non-emptiness guard failing, as a proposition. -/
theorem isNonEmptyValue_false_iff {v : Value} :
    isNonEmptyValue v = false ↔ v = Value.none ∨ v = Value.str "" := by
  rw [← Bool.not_eq_true, isNonEmptyValue_iff]
  tauto

/-! ## Skip lemmas: a failed lookup leaves the template untouched -/

/-- Passing a `None` row to `update_template` is a refused no-op. -/
theorem update_template_none_row (tpl : Worksheet) (tc : Option Nat) (v : Value) :
    update_template tpl Option.none tc v = (false, tpl) := rfl

/-- Reading back the written cell. -/
theorem setCell_same (ws : Worksheet) (r c : Nat) (cl : Cell) :
    (setCell ws r c cl).cells r c = cl := by
  simp [setCell]

/-- Reading any other cell. -/
theorem setCell_other (ws : Worksheet) (r c : Nat) (cl : Cell) (r' c' : Nat)
    (h : ¬(r' = r ∧ c' = c)) :
    (setCell ws r c cl).cells r' c' = ws.cells r' c' := by
  simp only [setCell]
  rw [if_neg h]

/-- If any lookup of a standard task's chain comes back not-found, the task
returns the template unchanged and does not report an update. -/
theorem stdTask_skip {src tpl : Worksheet} {mt it ct : String}
    (h : stdTaskLookupFailed src tpl mt it ct = true) (col : Nat) :
    (stdTask src tpl col mt it ct).1 = tpl ∧
    (stdTask src tpl col mt it ct).2 ≠ TaskOutcome.updated := by
  unfold stdTaskLookupFailed at h
  unfold stdTask
  cases h1 : find_merged_cell_by_text src mt with
  | none => simp
  | some rg =>
    rw [h1] at h
    simp only at h ⊢
    cases h2 : find_text_in_column_range src it rg.minRow
        (min (rg.maxRow + 5) src.maxRow) rg.minCol rg.maxCol with
    | none => simp
    | some rc =>
      obtain ⟨r, c⟩ := rc
      rw [h2] at h
      simp only [Bool.and_eq_true, decide_eq_true_eq] at h ⊢
      by_cases h3 : r ≠ 0 ∧ c ≠ 0
      · rw [if_pos h3] at h ⊢
        cases h4 : find_first_non_empty_below src r c 10 with
        | none => simp
        | some rcv =>
          obtain ⟨vr, vc, vv⟩ := rcv
          rw [h4] at h
          simp only [Option.isNone_iff_eq_none] at h
          simp [h, update_template_none_row]
      · rw [if_neg h3] at h ⊢
        simp

/-- Task 7's variant of `stdTask_skip`. -/
theorem task7_skip {src tpl : Worksheet}
    (h : task7LookupFailed src tpl = true) (col : Nat) :
    (task7 src tpl col).1 = tpl ∧ (task7 src tpl col).2 ≠ TaskOutcome.updated := by
  unfold task7LookupFailed at h
  unfold task7
  cases h1 : find_merged_cell_by_text src youxiaoText with
  | none => simp
  | some rg =>
    rw [h1] at h
    simp only at h ⊢
    cases h2 : find_text_in_column_range src xinzengText rg.minRow
        (min (rg.maxRow + 5) src.maxRow) rg.minCol rg.maxCol with
    | none => simp
    | some rc =>
      obtain ⟨r, c⟩ := rc
      rw [h2] at h
      simp only [Bool.and_eq_true, decide_eq_true_eq, Bool.not_eq_true',
        Bool.not_eq_true] at h ⊢
      by_cases h3 : (r ≠ 0 ∧ c ≠ 0) ∧
          valueContainsStr (src.cells r c).value liutongExclude = false
      · rw [if_pos h3] at h ⊢
        cases h4 : find_first_non_empty_below src r c 10 with
        | none => simp
        | some rcv =>
          obtain ⟨vr, vc, vv⟩ := rcv
          rw [h4] at h
          simp only [Option.isNone_iff_eq_none] at h
          simp [h, update_template_none_row]
      · rw [if_neg h3] at h ⊢
        simp

/-- Task 8's variant of `stdTask_skip`. -/
theorem task8_skip {src tpl : Worksheet}
    (h : task8LookupFailed src tpl = true) (col : Nat) :
    (task8 src tpl col).1 = tpl ∧ (task8 src tpl col).2 ≠ TaskOutcome.updated := by
  unfold task8LookupFailed at h
  unfold task8
  cases h1 : find_merged_cell_by_text src liutongText with
  | none => simp
  | some rg =>
    rw [h1] at h
    simp only at h ⊢
    cases h2 : find_first_non_empty_below src rg.minRow rg.minCol 10 with
    | none => simp
    | some rcv =>
      obtain ⟨vr, vc, vv⟩ := rcv
      rw [h2] at h
      simp only [Option.isNone_iff_eq_none] at h
      simp [h, update_template_none_row]

/-! ## Claim theorems -/

/-- C2: within each metric task, a lookup step returning not-found makes the
task skip only that metric — the template worksheet passes through unchanged
and no update is reported — while `main` still runs all five metric tasks in
order and still attempts the final save; a per-metric lookup failure never
aborts the remaining tasks. -/
theorem lookup_failure_skips_metric_and_continues (env : Env)
    (hs : env.sourceExists = true) (ht : env.templateExists = true)
    (hl : env.loadOk = true) (col : Nat)
    (hcol : find_column_index_by_header env.template TARGET_COLUMN_HEADER HEADER_ROW
      = Option.some col)
    (hc : col ≠ 0) :
    ((mainRun env).outcomes).length = 5 ∧
    (mainRun env).templateOut =
      Option.some (task8 env.source
        (task7 env.source
          (task6 env.source
            (task5 env.source (task1 env.source env.template col).1 col).1
            col).1 col).1 col).1 ∧
    ((mainRun env).saved).isSome = env.saveOk ∧
    (∀ src tpl c mt it ct, stdTaskLookupFailed src tpl mt it ct = true →
        (stdTask src tpl c mt it ct).1 = tpl ∧
        (stdTask src tpl c mt it ct).2 ≠ TaskOutcome.updated) ∧
    (∀ src tpl c, task7LookupFailed src tpl = true →
        (task7 src tpl c).1 = tpl ∧ (task7 src tpl c).2 ≠ TaskOutcome.updated) ∧
    (∀ src tpl c, task8LookupFailed src tpl = true →
        (task8 src tpl c).1 = tpl ∧ (task8 src tpl c).2 ≠ TaskOutcome.updated) := by
  have hrun : mainRun env =
      ⟨true,
        Option.some (task8 env.source
          (task7 env.source
            (task6 env.source
              (task5 env.source (task1 env.source env.template col).1 col).1
              col).1 col).1 col).1,
        if env.saveOk then
          Option.some (task8 env.source
            (task7 env.source
              (task6 env.source
                (task5 env.source (task1 env.source env.template col).1 col).1
                col).1 col).1 col).1
        else Option.none,
        [(task1 env.source env.template col).2,
         (task5 env.source (task1 env.source env.template col).1 col).2,
         (task6 env.source
            (task5 env.source (task1 env.source env.template col).1 col).1 col).2,
         (task7 env.source
            (task6 env.source
              (task5 env.source (task1 env.source env.template col).1 col).1
              col).1 col).2,
         (task8 env.source
            (task7 env.source
              (task6 env.source
                (task5 env.source (task1 env.source env.template col).1 col).1
                col).1 col).1 col).2]⟩ := by
    unfold mainRun
    rw [hs, ht, hl, hcol]
    simp [pyFalsy, hc]
  refine ⟨by rw [hrun]; rfl, by rw [hrun], ?_, ?_, ?_, ?_⟩
  · rw [hrun]
    cases hsv : env.saveOk <;> simp
  · intro src tpl c mt it ct hfail
    exact stdTask_skip hfail c
  · intro src tpl c hfail
    exact task7_skip hfail c
  · intro src tpl c hfail
    exact task8_skip hfail c

/-- Witness for C2 at the concrete environment `envW`: the target column is
found in column 4 and the conclusion holds there. -/
theorem lookup_failure_skips_metric_and_continues_witness :
    ((mainRun envW).outcomes).length = 5 ∧
    (mainRun envW).templateOut =
      Option.some (task8 envW.source
        (task7 envW.source
          (task6 envW.source
            (task5 envW.source (task1 envW.source envW.template 4).1 4).1
            4).1 4).1 4).1 ∧
    ((mainRun envW).saved).isSome = envW.saveOk ∧
    (∀ src tpl c mt it ct, stdTaskLookupFailed src tpl mt it ct = true →
        (stdTask src tpl c mt it ct).1 = tpl ∧
        (stdTask src tpl c mt it ct).2 ≠ TaskOutcome.updated) ∧
    (∀ src tpl c, task7LookupFailed src tpl = true →
        (task7 src tpl c).1 = tpl ∧ (task7 src tpl c).2 ≠ TaskOutcome.updated) ∧
    (∀ src tpl c, task8LookupFailed src tpl = true →
        (task8 src tpl c).1 = tpl ∧ (task8 src tpl c).2 ≠ TaskOutcome.updated) :=
  lookup_failure_skips_metric_and_continues envW rfl rfl rfl 4 (by decide)
    (by decide)

/-- C3: when the source file or the template file is missing, `main` returns
before any processing: no lookup runs, no template worksheet is loaded or
modified, no output file is written and no metric task is attempted. -/
theorem missing_input_files_abort_before_processing (env : Env)
    (h : env.sourceExists = false ∨ env.templateExists = false) :
    mainRun env = ⟨false, Option.none, Option.none, []⟩ := by
  rcases h with h | h
  · unfold mainRun
    rw [h]
    rfl
  · cases hs : env.sourceExists
    · unfold mainRun
      rw [hs]
      rfl
    · unfold mainRun
      rw [hs, h]
      rfl

/-- Witness for C3: with the source file absent, `main` does nothing. -/
theorem missing_input_files_abort_before_processing_witness :
    mainRun envMissing = ⟨false, Option.none, Option.none, []⟩ :=
  missing_input_files_abort_before_processing envMissing (Or.inl rfl)

/-! ## None-result characterizations of the lookup primitives -/

/-- The merged-cell search fails exactly when no range's top-left cell holds a
non-empty string containing the target. -/
theorem find_merged_none_iff (ws : Worksheet) (t : String) :
    find_merged_cell_by_text ws t = Option.none ↔
      ∀ rg ∈ ws.mergedRanges,
        ¬∃ s, (ws.cells rg.minRow rg.minCol).value = Value.str s ∧ s ≠ "" ∧
          strContains s t = true := by
  unfold find_merged_cell_by_text
  rw [List.find?_eq_none]
  constructor
  · intro hall rg hm hex
    exact hall rg hm (cellTextMatches_iff.mpr hex)
  · intro hall rg hm hp
    exact hall rg hm (cellTextMatches_iff.mp hp)

/-- The rectangle search fails exactly when no in-bounds cell of the rectangle
holds a non-empty string containing the target. -/
theorem find_text_none_iff (ws : Worksheet) (t : String)
    (r1 r2 c1 c2 : Nat) :
    find_text_in_column_range ws t r1 r2 c1 c2 = Option.none ↔
      ∀ r c, r1 ≤ r → r ≤ r2 → c1 ≤ c → c ≤ c2 → r ≤ ws.maxRow → c ≤ ws.maxCol →
        ¬∃ s, (ws.cells r c).value = Value.str s ∧ s ≠ "" ∧
          strContains s t = true := by
  unfold find_text_in_column_range
  rw [findFirstInGrid_eq_none]
  constructor
  · intro hall r c h1 h2 h3 h4 h5 h6 hex
    have hp := hall r c h1 (by omega) h3 (by omega)
    have htr := cellTextMatches_iff.mpr hex
    rw [htr, Bool.and_true] at hp
    simp only [Bool.not_eq_false', Bool.or_eq_true, decide_eq_true_eq] at hp
    rcases hp with hp | hp <;> omega
  · intro hall r c h1 h2 h3 h4
    by_cases hr : r ≤ ws.maxRow
    · by_cases hc : c ≤ ws.maxCol
      · cases hm : cellTextMatches (ws.cells r c).value t
        · simp [hm]
        · exact absurd (cellTextMatches_iff.mp hm)
            (hall r c h1 (by omega) h3 (by omega) hr hc)
      · have hgt : ws.maxCol < c := Nat.not_le.mp hc
        simp [hgt]
    · have hgt : ws.maxRow < r := Nat.not_le.mp hr
      simp [hgt]

/-- The downward search fails exactly when every scanned cell below the anchor
is `None` or the empty string. -/
theorem find_below_none_iff (ws : Worksheet) (sr col m : Nat) :
    find_first_non_empty_below ws sr col m = Option.none ↔
      ∀ r, sr + 1 ≤ r → r ≤ min (sr + m) ws.maxRow →
        ((ws.cells r col).value = Value.none ∨
          (ws.cells r col).value = Value.str "") := by
  unfold find_first_non_empty_below
  cases hf : findFirstInRange (sr + 1)
      (min (sr + 1 + m) (ws.maxRow + 1) - (sr + 1))
      (fun r => isNonEmptyValue (ws.cells r col).value) with
  | some r0 =>
    obtain ⟨hb1, hb2, hb3, -⟩ := findFirstInRange_eq_some.mp hf
    constructor
    · intro h; exact Option.noConfusion h
    · intro hall
      have hempty := hall r0 hb1 (by omega)
      have hfalse := isNonEmptyValue_false_iff.mpr hempty
      rw [hb3] at hfalse
      exact Bool.noConfusion hfalse
  | none =>
    have hall := findFirstInRange_eq_none.mp hf
    constructor
    · intro _ r h1 h2
      exact isNonEmptyValue_false_iff.mp (hall r h1 (by omega))
    · intro _; rfl

/-- The category-row search fails exactly when no row's category-column cell
holds a non-empty string containing the category text. -/
theorem find_category_none_iff (tpl : Worksheet) (t : String) :
    find_template_category_row tpl t = Option.none ↔
      ∀ row, 1 ≤ row → row ≤ tpl.maxRow →
        ¬∃ s, (tpl.cells row TEMPLATE_CATEGORY_COL).value = Value.str s ∧
          s ≠ "" ∧ strContains s t = true := by
  unfold find_template_category_row
  rw [findFirstInRange_eq_none]
  constructor
  · intro hall row h1 h2 hex
    have hp := hall row h1 (by omega)
    have htr := cellTextMatches_iff.mpr hex
    rw [hp] at htr
    exact Bool.noConfusion htr
  · intro hall row h1 h2
    cases hm : cellTextMatches (tpl.cells row TEMPLATE_CATEGORY_COL).value t
    · rfl
    · exact absurd (cellTextMatches_iff.mp hm) (hall row h1 (by omega))

/-- The header-column search fails exactly when no header-row cell holds a
non-empty string whose stripped form equals the stripped header text. -/
theorem find_header_none_iff (ws : Worksheet) (t : String) (hr : Nat) :
    find_column_index_by_header ws t hr = Option.none ↔
      ∀ c, 1 ≤ c → c ≤ ws.maxCol →
        ¬∃ s, (ws.cells hr c).value = Value.str s ∧ s ≠ "" ∧
          pyStrip t = pyStrip s := by
  unfold find_column_index_by_header
  rw [findFirstInRange_eq_none]
  constructor
  · intro hall c h1 h2 hex
    have hp := hall c h1 (by omega)
    have htr := headerMatches_iff.mpr hex
    rw [hp] at htr
    exact Bool.noConfusion htr
  · intro hall c h1 h2
    cases hm : headerMatches (ws.cells hr c).value t
    · rfl
    · exact absurd (headerMatches_iff.mp hm) (hall c h1 (by omega))

/-! ## C1 -/

/-- C1 counterexample: the code iterates `ws.merged_cells.ranges` in
collection order, not top-to-bottom sheet order.  In `wsOrd` both ranges'
top-left cells contain `"X"`, the range at row 2 is the topmost, yet the
range at row 10 — listed first — is returned.  Also, a top-left cell holding
the empty string (a string that does contain the target `""`) is skipped by
the Python truthiness guard, so the search reports not-found. -/
theorem find_merged_cell_order_cex :
    find_merged_cell_by_text wsOrd "X" = Option.some ⟨10, 11, 1, 2⟩ ∧
    MergedRange.mk 2 3 1 2 ∈ wsOrd.mergedRanges ∧
    (wsOrd.cells 2 1).value = Value.str "X小计" ∧
    strContains "X小计" "X" = true ∧ (2 : Nat) < 10 ∧
    find_merged_cell_by_text wsEmptyTL "" = Option.none ∧
    MergedRange.mk 5 6 2 3 ∈ wsEmptyTL.mergedRanges ∧
    (wsEmptyTL.cells 5 2).value = Value.str "" ∧
    strContains "" "" = true := by decide

/-- C1 as amended: `find_merged_cell_by_text` returns the first merged range,
in the order of the worksheet's merged-range collection, whose top-left cell
value is a non-empty string containing `target_text`, and `None` when no
range's top-left cell matches. -/
theorem find_merged_cell_by_text_first_match_in_collection_order :
    ∀ (ws : Worksheet) (t : String),
    (∀ rg, find_merged_cell_by_text ws t = Option.some rg →
       (∃ s, (ws.cells rg.minRow rg.minCol).value = Value.str s ∧ s ≠ "" ∧
          strContains s t = true) ∧
       ∃ l1 l2, ws.mergedRanges = l1 ++ rg :: l2 ∧
         ∀ rg' ∈ l1,
           ¬∃ s, (ws.cells rg'.minRow rg'.minCol).value = Value.str s ∧
             s ≠ "" ∧ strContains s t = true) ∧
    (find_merged_cell_by_text ws t = Option.none ↔
       ∀ rg ∈ ws.mergedRanges,
         ¬∃ s, (ws.cells rg.minRow rg.minCol).value = Value.str s ∧ s ≠ "" ∧
           strContains s t = true) := by
  intro ws t
  refine ⟨?_, find_merged_none_iff ws t⟩
  intro rg h
  unfold find_merged_cell_by_text at h
  obtain ⟨l1, l2, he, hp, hall⟩ := find?_first_split h
  refine ⟨cellTextMatches_iff.mp hp, l1, l2, he, ?_⟩
  intro rg' h1 hmatch
  have hf := hall rg' h1
  have htr := cellTextMatches_iff.mpr hmatch
  rw [hf] at htr
  exact Bool.noConfusion htr

/-! ## C4 -/

/-- C4 counterexample: the header comparison strips whitespace.  In `wsStrip`
the only column's header cell holds `"X "`, which does not equal the header
text `"X"`, so under the claim the search should return `None`; the code
returns column 1. -/
theorem header_lookup_strips_whitespace_cex :
    find_column_index_by_header wsStrip "X" 2 = Option.some 1 ∧
    wsStrip.maxCol = 1 ∧
    (wsStrip.cells 2 1).value = Value.str "X " ∧
    Value.str "X " ≠ Value.str "X" := by decide

/-- C4 as amended: `find_column_index_by_header` returns the smallest column
index of `1..max_column` whose header-row cell holds a non-empty string equal
to `header_text` after stripping leading and trailing whitespace from both,
and `None` when no column matches. -/
theorem find_column_index_by_header_first_stripped_match :
    ∀ (ws : Worksheet) (t : String) (hr : Nat),
    (∀ c, find_column_index_by_header ws t hr = Option.some c →
       1 ≤ c ∧ c ≤ ws.maxCol ∧
       (∃ s, (ws.cells hr c).value = Value.str s ∧ s ≠ "" ∧
          pyStrip t = pyStrip s) ∧
       ∀ c', 1 ≤ c' → c' < c →
         ¬∃ s, (ws.cells hr c').value = Value.str s ∧ s ≠ "" ∧
           pyStrip t = pyStrip s) ∧
    (find_column_index_by_header ws t hr = Option.none ↔
       ∀ c, 1 ≤ c → c ≤ ws.maxCol →
         ¬∃ s, (ws.cells hr c).value = Value.str s ∧ s ≠ "" ∧
           pyStrip t = pyStrip s) := by
  intro ws t hr
  refine ⟨?_, find_header_none_iff ws t hr⟩
  intro c h
  unfold find_column_index_by_header at h
  obtain ⟨h1, h2, h3, h4⟩ := findFirstInRange_eq_some.mp h
  refine ⟨h1, by omega, headerMatches_iff.mp h3, ?_⟩
  intro c' hc1 hc2 hex
  have hft := h4 c' hc1 hc2
  have htr := headerMatches_iff.mpr hex
  rw [hft] at htr
  exact Bool.noConfusion htr

/-! ## C5 -/

/-- C5: with a valid (non-falsy) row and column, `update_template` reports
success and writes into the target cell the value — an int unchanged, a float
rounded to two decimal places — with center alignment and a black font;
non-numeric values are written unchanged. -/
theorem update_template_writes_rounded_value_with_formatting
    (tpl : Worksheet) (r c : Nat) (hrow : r ≠ 0) (hcol : c ≠ 0) (v : Value) :
    (update_template tpl (Option.some r) (Option.some c) v).1 = true ∧
    (update_template tpl (Option.some r) (Option.some c) v).2.cells r c =
      { value :=
          match v with
          | Value.int n => Value.int n
          | Value.float q => Value.float ((roundHalfEven (q * 100) : ℚ) / 100)
          | w => w,
        alignment := Option.some
          { horizontal := Option.some "center", vertical := Option.some "center" },
        font := Option.some { color := Option.some "000000" } } := by
  have hfr : pyFalsy (Option.some r) = false := by simp [pyFalsy, hrow]
  have hfc : pyFalsy (Option.some c) = false := by simp [pyFalsy, hcol]
  have heq : update_template tpl (Option.some r) (Option.some c) v =
      (true, setCell tpl r c
        { value := round2Value v,
          alignment := Option.some
            { horizontal := Option.some "center", vertical := Option.some "center" },
          font := Option.some { color := Option.some "000000" } }) := by
    unfold update_template
    rw [hfr, hfc]
    rfl
  refine ⟨by rw [heq], ?_⟩
  rw [heq]
  show (setCell tpl r c _).cells r c = _
  rw [setCell_same]
  cases v <;> rfl

/-- Witness for C5: writing the float 12.345 into cell (3, 2) of the blank
sheet rounds it to 12.34 (ties to even) and applies the formatting. -/
theorem update_template_writes_rounded_value_with_formatting_witness :
    (update_template wsEmpty (Option.some 3) (Option.some 2)
      (Value.float (12345 / 1000))).1 = true ∧
    (update_template wsEmpty (Option.some 3) (Option.some 2)
      (Value.float (12345 / 1000))).2.cells 3 2 =
      { value := Value.float ((roundHalfEven ((12345 / 1000 : ℚ) * 100) : ℚ) / 100),
        alignment := Option.some
          { horizontal := Option.some "center", vertical := Option.some "center" },
        font := Option.some { color := Option.some "000000" } } :=
  update_template_writes_rounded_value_with_formatting wsEmpty 3 2
    (by decide) (by decide) (Value.float (12345 / 1000))

/-! ## C6 -/

/-- C6: a successful `update_template` call writes the processed value to the
single target cell and leaves every other cell of the template worksheet —
value, alignment and font — exactly as it was. -/
theorem update_template_frame (tpl : Worksheet) (r c : Nat)
    (hrow : r ≠ 0) (hcol : c ≠ 0) (v : Value) :
    (update_template tpl (Option.some r) (Option.some c) v).1 = true ∧
    ((update_template tpl (Option.some r) (Option.some c) v).2.cells r c).value
      = round2Value v ∧
    ∀ r' c', ¬(r' = r ∧ c' = c) →
      (update_template tpl (Option.some r) (Option.some c) v).2.cells r' c'
        = tpl.cells r' c' := by
  have hfr : pyFalsy (Option.some r) = false := by simp [pyFalsy, hrow]
  have hfc : pyFalsy (Option.some c) = false := by simp [pyFalsy, hcol]
  have heq : update_template tpl (Option.some r) (Option.some c) v =
      (true, setCell tpl r c
        { value := round2Value v,
          alignment := Option.some
            { horizontal := Option.some "center", vertical := Option.some "center" },
          font := Option.some { color := Option.some "000000" } }) := by
    unfold update_template
    rw [hfr, hfc]
    rfl
  refine ⟨by rw [heq], ?_, ?_⟩
  · rw [heq]
    show ((setCell tpl r c _).cells r c).value = _
    rw [setCell_same]
  · intro r' c' hne
    rw [heq]
    show (setCell tpl r c _).cells r' c' = _
    rw [setCell_other _ _ _ _ _ _ hne]

/-- Witness for C6 at concrete coordinates: updating cell (5, 4) of `tplW`
succeeds and leaves cell (1, 1) untouched. -/
theorem update_template_frame_witness :
    (update_template tplW (Option.some 5) (Option.some 4) (Value.int 7)).1 = true ∧
    ((update_template tplW (Option.some 5) (Option.some 4)
        (Value.int 7)).2.cells 5 4).value = round2Value (Value.int 7) ∧
    (update_template tplW (Option.some 5) (Option.some 4) (Value.int 7)).2.cells 1 1
      = tplW.cells 1 1 :=
  have h := update_template_frame tplW 5 4 (by decide) (by decide) (Value.int 7)
  ⟨h.1, h.2.1, h.2.2 1 1 (by decide)⟩

/-! ## C7 -/

/-- C7: `find_first_non_empty_below` scans rows `start_row+1` through
`start_row+max_rows_to_check`, capped at the sheet's last row, in the given
column; a successful result is the first scanned cell whose value is neither
`None` nor the empty string, returned with its row and column, and the
not-found sentinel comes back exactly when every scanned cell is empty. -/
theorem find_first_non_empty_below_characterization :
    ∀ (ws : Worksheet) (sr col m : Nat),
    (∀ r c v, find_first_non_empty_below ws sr col m = Option.some (r, c, v) →
       c = col ∧ sr + 1 ≤ r ∧ r ≤ min (sr + m) ws.maxRow ∧
       v = (ws.cells r col).value ∧ v ≠ Value.none ∧ v ≠ Value.str "" ∧
       ∀ r', sr + 1 ≤ r' → r' < r →
         ((ws.cells r' col).value = Value.none ∨
           (ws.cells r' col).value = Value.str "")) ∧
    (find_first_non_empty_below ws sr col m = Option.none ↔
       ∀ r, sr + 1 ≤ r → r ≤ min (sr + m) ws.maxRow →
         ((ws.cells r col).value = Value.none ∨
           (ws.cells r col).value = Value.str "")) := by
  intro ws sr col m
  refine ⟨?_, find_below_none_iff ws sr col m⟩
  intro r c v h
  unfold find_first_non_empty_below at h
  cases hf : findFirstInRange (sr + 1)
      (min (sr + 1 + m) (ws.maxRow + 1) - (sr + 1))
      (fun r => isNonEmptyValue (ws.cells r col).value) with
  | none => rw [hf] at h; exact Option.noConfusion h
  | some r0 =>
    rw [hf] at h
    simp only [Option.some.injEq, Prod.mk.injEq] at h
    obtain ⟨e1, e2, e3⟩ := h
    subst e1
    obtain ⟨hb1, hb2, hb3, hb4⟩ := findFirstInRange_eq_some.mp hf
    obtain ⟨hv1, hv2⟩ := isNonEmptyValue_iff.mp hb3
    refine ⟨e2.symm, hb1, by omega, e3.symm, ?_, ?_, ?_⟩
    · exact e3 ▸ hv1
    · exact e3 ▸ hv2
    · intro r' hr1 hr2
      exact isNonEmptyValue_false_iff.mp (hb4 r' hr1 hr2)

/-! ## C8 -/

/-- C8: each lookup primitive is a total function returning the not-found
sentinel (`None`) exactly when nothing in its scan domain matches; a missing
label therefore yields the sentinel — and the logged skip in `main` — rather
than an exception. -/
theorem lookup_primitives_return_sentinel_on_failure :
    (∀ (ws : Worksheet) (t : String),
       find_merged_cell_by_text ws t = Option.none ↔
         ∀ rg ∈ ws.mergedRanges,
           ¬∃ s, (ws.cells rg.minRow rg.minCol).value = Value.str s ∧ s ≠ "" ∧
             strContains s t = true) ∧
    (∀ (ws : Worksheet) (t : String) (r1 r2 c1 c2 : Nat),
       find_text_in_column_range ws t r1 r2 c1 c2 = Option.none ↔
         ∀ r c, r1 ≤ r → r ≤ r2 → c1 ≤ c → c ≤ c2 → r ≤ ws.maxRow →
           c ≤ ws.maxCol →
           ¬∃ s, (ws.cells r c).value = Value.str s ∧ s ≠ "" ∧
             strContains s t = true) ∧
    (∀ (ws : Worksheet) (sr col m : Nat),
       find_first_non_empty_below ws sr col m = Option.none ↔
         ∀ r, sr + 1 ≤ r → r ≤ min (sr + m) ws.maxRow →
           ((ws.cells r col).value = Value.none ∨
             (ws.cells r col).value = Value.str "")) ∧
    (∀ (tpl : Worksheet) (t : String),
       find_template_category_row tpl t = Option.none ↔
         ∀ row, 1 ≤ row → row ≤ tpl.maxRow →
           ¬∃ s, (tpl.cells row TEMPLATE_CATEGORY_COL).value = Value.str s ∧
             s ≠ "" ∧ strContains s t = true) ∧
    (∀ (ws : Worksheet) (t : String) (hr : Nat),
       find_column_index_by_header ws t hr = Option.none ↔
         ∀ c, 1 ≤ c → c ≤ ws.maxCol →
           ¬∃ s, (ws.cells hr c).value = Value.str s ∧ s ≠ "" ∧
             pyStrip t = pyStrip s) :=
  ⟨find_merged_none_iff, find_text_none_iff, find_below_none_iff,
    find_category_none_iff, find_header_none_iff⟩

/-! ## C9 -/

/-- C9: a cell holding the number `0` directly below the anchor is returned
as the found value — only `None` and the empty string count as empty. -/
theorem zero_below_is_found (ws : Worksheet) (sr col m : Nat)
    (hm : 1 ≤ m) (hrow : sr + 1 ≤ ws.maxRow)
    (h0 : (ws.cells (sr + 1) col).value = Value.int 0) :
    find_first_non_empty_below ws sr col m = Option.some (sr + 1, col, Value.int 0) := by
  unfold find_first_non_empty_below
  obtain ⟨n, hn⟩ : ∃ n, min (sr + 1 + m) (ws.maxRow + 1) - (sr + 1) = n + 1 :=
    ⟨min (sr + 1 + m) (ws.maxRow + 1) - (sr + 1) - 1, by omega⟩
  rw [hn]
  simp [findFirstInRange, h0, isNonEmptyValue]

/-- Witness for C9: in `wsZero`, the cell two below the anchor row 2 holds
`0` and is found. -/
theorem zero_below_is_found_witness :
    find_first_non_empty_below wsZero 2 2 10 = Option.some (3, 2, Value.int 0) :=
  zero_below_is_found wsZero 2 2 10 (by decide) (by decide) (by decide)

/-! ## C10 -/

/-- C10: `update_template` with a falsy target row or column (Python `None`
or `0`) returns `False` and leaves the template worksheet entirely
unchanged — no cell value, alignment or font is modified. -/
theorem update_template_invalid_target_noop (tpl : Worksheet)
    (target_row target_col : Option Nat) (v : Value)
    (h : pyFalsy target_row = true ∨ pyFalsy target_col = true) :
    update_template tpl target_row target_col v = (false, tpl) := by
  unfold update_template
  rcases h with h | h
  · simp [h]
  · cases hrow : pyFalsy target_row
    · simp [hrow, h]
    · simp [hrow]

/-- Witness for C10: a `None` target row is refused and `tplW` is returned
as it was. -/
theorem update_template_invalid_target_noop_witness :
    update_template tplW Option.none (Option.some 2) (Value.int 5)
      = (false, tplW) :=
  update_template_invalid_target_noop tplW Option.none (Option.some 2)
    (Value.int 5) (Or.inl rfl)

end ExcelProc

